import Mathlib

/-!
Verification development for the `mcp_clockify` MCP server (`src/index.ts`).

The TypeScript source is shallowly embedded: JavaScript values flowing through
the handlers are modelled by `JSVal`, the `fetch` network effect is modelled by
an explicit oracle `net : ApiRequest → FetchOutcome`, and the list of requests
actually issued is returned alongside each result so that "no network call
occurs" is a provable statement. JavaScript exceptions are modelled by
`Except String` carrying the exception message, matching the source's
exclusive use of `error.message`.
-/

/-- JavaScript values as they appear in this program: JSON-like data plus
`undefined` (property access on objects missing a key yields `undefined`).
Numbers are modelled as integers, which covers every numeric value the
program manipulates. -/
inductive JSVal where
  | undefined : JSVal
  | null : JSVal
  | boolean : Bool → JSVal
  | num : Int → JSVal
  | str : String → JSVal
  | arr : List JSVal → JSVal
  | obj : List (String × JSVal) → JSVal
deriving Repr

/-- Escaping of one character inside a JSON string literal
(`JSON.stringify` escapes quotes and backslashes; other characters used by
this program pass through unchanged). -/
def jsonEscapeChar (c : Char) : String :=
  if c = '"' then "\\\"" else if c = '\\' then "\\\\" else String.singleton c

/-- Escape a string for inclusion in a JSON string literal. -/
def jsonEscape (s : String) : String :=
  String.join (s.data.map jsonEscapeChar)

/-- A JSON string literal: quotes around the escaped content. -/
def jsonQuote (s : String) : String :=
  "\"" ++ jsonEscape s ++ "\""

mutual

/-- `JSON.stringify` on the values this program serializes. Object fields
whose value is `undefined` are omitted, as `JSON.stringify` does; `undefined`
inside an array serializes as `null`. -/
def JSVal.stringify : JSVal → String
  | .undefined => "null"
  | .null => "null"
  | .boolean b => if b then "true" else "false"
  | .num n => toString n
  | .str s => jsonQuote s
  | .arr xs => "[" ++ String.intercalate "," (stringifyArr xs) ++ "]"
  | .obj fs => "\x7b" ++ String.intercalate "," (stringifyObj fs) ++ "\x7d"

/-- Serialization of the elements of an array. -/
def stringifyArr : List JSVal → List String
  | [] => []
  | x :: xs => x.stringify :: stringifyArr xs

/-- Serialization of the fields of an object, omitting `undefined`-valued
fields as `JSON.stringify` does. -/
def stringifyObj : List (String × JSVal) → List String
  | [] => []
  | (k, v) :: fs =>
    match v with
    | .undefined => stringifyObj fs
    | w => (jsonQuote k ++ ":" ++ w.stringify) :: stringifyObj fs

end

/-- Property access `v[k]`, as JavaScript performs it: on an object it yields
the field value or `undefined`; on `undefined` or `null` it throws a
`TypeError`; on other primitives and arrays the properties this program reads
are absent, yielding `undefined`. -/
def JSVal.getProp (v : JSVal) (k : String) : Except String JSVal :=
  match v with
  | .undefined => .error ("Cannot read properties of undefined (reading " ++ k ++ ")")
  | .null => .error ("Cannot read properties of null (reading " ++ k ++ ")")
  | .obj fs => .ok ((fs.find? (fun p => p.1 == k)).elim JSVal.undefined Prod.snd)
  | _ => .ok .undefined

/-- One item of an MCP tool result's `content` array. -/
structure ContentItem where
  type : String
  text : String
deriving Repr, DecidableEq

/-- `CallToolResult` from the MCP SDK, restricted to the fields this program
produces. -/
structure CallToolResult where
  content : List ContentItem
deriving Repr, DecidableEq

/-- The text of the content item `sendResponse` builds: the runtime check
`typeof text === "string"` passes a string through unchanged and
JSON-serializes anything else. -/
def payloadText (text : JSVal) : String :=
  match text with | .str s => s | v => v.stringify

/-- `sendResponse` from `src/index.ts`: builds a result with a single content
item. The payload is a runtime value (`string | object` in the signature, but
handlers also pass raw upstream data typed `any`). -/
def sendResponse (type : String) (text : JSVal) : CallToolResult :=
  ⟨[⟨type, payloadText text⟩]⟩

/-- `responseWrapper` from `src/index.ts`: a successful handler result is
returned unchanged; a thrown error (modelled as `Except.error` with the
exception message) becomes a normal textual result `Error: <message>`.
The function is total: no exception propagates past it. -/
def responseWrapper (r : Except String CallToolResult) : CallToolResult :=
  match r with
  | .ok res => res
  | .error msg => sendResponse "text" (.str ("Error: " ++ msg))

/-- One outbound HTTP request as handed to `fetch`: full URL, method, and the
`body` argument given to `makeAPIRequest`. The wire form of an object body is
its `JSVal.stringify`; a string body is sent as-is (the source's
`typeof body === "object"` check). -/
structure ApiRequest where
  url : String
  method : String
  body : Option JSVal
deriving Repr

/-- An HTTP response as observed through the `fetch` API: its status, its body
read as text (`response.text()`), and the outcome of `response.json()` —
either the parsed value or the message of the parse error it throws. -/
structure HttpResponse where
  status : Nat
  bodyText : String
  jsonBody : Except String JSVal
deriving Repr

/-- Outcome of one `fetch` call: a response, or a network-level failure
carrying the rejection's message. -/
inductive FetchOutcome where
  | success : HttpResponse → FetchOutcome
  | networkFailure : String → FetchOutcome
deriving Repr

/-- The fixed base URL of the upstream service. -/
def CLOCKIFY_API_BASE : String := "https://api.clockify.me/api/v1"

/-- `makeAPIRequest` from `src/index.ts`. The credential is
`process.env.CLOCKIFY_API_KEY` (`none` when unset); `!key` is truthy for both
an unset and an empty variable, so either fails before any fetch. The
returned list records the fetch calls actually issued (empty or a
singleton). Errors thrown inside the `try` block — the non-success-status
error and any `fetch`/`json` rejection — are re-wrapped with the
`Error making Clockify API request: ` prefix; the missing-key error is thrown
before the `try` and is not wrapped. -/
def makeAPIRequest (apiKey : Option String) (net : ApiRequest → FetchOutcome)
    (url : String) (method : String) (body : Option JSVal) :
    Except String JSVal × List ApiRequest :=
  match apiKey with
  | none => (.error "Missing Clockify API key", [])
  | some key =>
    if key = "" then (.error "Missing Clockify API key", [])
    else
      let req : ApiRequest := ⟨CLOCKIFY_API_BASE ++ url, method, body⟩
      match net req with
      | .networkFailure msg =>
          (.error ("Error making Clockify API request: " ++ msg), [req])
      | .success resp =>
          if ¬ (200 ≤ resp.status ∧ resp.status < 300) then
            (.error ("Error making Clockify API request: " ++
              "HTTP error! status: " ++ toString resp.status ++
              ", response: " ++ resp.bodyText), [req])
          else if resp.status = 204 then
            (.ok (JSVal.obj []), [req])
          else
            match resp.jsonBody with
            | .ok j => (.ok j, [req])
            | .error m =>
                (.error ("Error making Clockify API request: " ++ m), [req])

/-!
## Dates

`create-clockify-time-entry` and `update-clockify-time-entry` evaluate
`new Date(input.start).toISOString()`. A JavaScript `Date` wraps a time value:
the number of milliseconds since the Unix epoch, or NaN for an Invalid Date.
We model a `Date` as `Option Int` (`none` = Invalid Date) and `Date` parsing
as an abstract function `String → Option Int` (ECMAScript leaves local-time
parsing host-dependent). `toISOString` is modelled concretely: it decomposes
the time value into proleptic-Gregorian UTC calendar parts and renders them as
`YYYY-MM-DDTHH:mm:ss.sssZ`; on an Invalid Date it throws
`RangeError: Invalid time value`.

The calendar decomposition below is extensionally the standard days ↔ civil
conversion (Gregorian, era-based); `daysFromCivil` is the transparent
specification direction (it sums era, year-of-era and month-table offsets) and
the round-trip theorem `civil_roundtrip` proves the decomposition inverts it,
which is what "the serialized string denotes the same instant" rests on.
-/

/-- First day (day-of-era) of a year-of-era: 365 days per year plus the
Gregorian leap days accumulated before it. -/
def soyOf (yoe : Int) : Int := 365 * yoe + yoe / 4 - yoe / 100

/-- Initial guess for the year-of-era containing a day-of-era. -/
def gOf (doe : Int) : Int := if doe / 365 ≤ 399 then doe / 365 else 399

/-- Year-of-era containing a day-of-era: the guess, corrected down by one when
the guessed year starts after the day. -/
def yoeOf (doe : Int) : Int :=
  if doe < soyOf (gOf doe) then gOf doe - 1 else gOf doe

/-- Day-of-year (0-based from March 1) of a day-of-era. -/
def doyOf (doe : Int) : Int := doe - soyOf (yoeOf doe)

/-- Shifted month index (0 = March, …, 11 = February) of a day-of-year. -/
def mpOfDoy (doy : Int) : Int := (5 * doy + 2) / 153

/-- Day of month (1-based) of a day-of-year. -/
def dayOfDoy (doy : Int) : Int := doy - (153 * mpOfDoy doy + 2) / 5 + 1

/-- Calendar month (1 = January, …, 12 = December) of a day-of-year. -/
def monthOfDoy (doy : Int) : Int :=
  mpOfDoy doy + (if mpOfDoy doy < 10 then 3 else -9)

/-- Civil (year, month, day) from an era number and a day-of-era. -/
def civilParts (era doe : Int) : Int × Int × Int :=
  (yoeOf doe + era * 400 + (if monthOfDoy (doyOf doe) ≤ 2 then 1 else 0),
   monthOfDoy (doyOf doe), dayOfDoy (doyOf doe))

/-- Civil (year, month, day) from a count of days since 1970-01-01. -/
def civilFromDays (z : Int) : Int × Int × Int :=
  civilParts ((z + 719468) / 146097) ((z + 719468) % 146097)

/-- Day-of-year (0-based from March 1) from a calendar month and day, via the
standard 153-day five-month cycle table. -/
def dfcDoy (m d : Int) : Int := (153 * (m + (if m > 2 then -3 else 9)) + 2) / 5 + d - 1

/-- Days since 1970-01-01 of a civil (year, month, day): the specification
direction of the calendar conversion. -/
def daysFromCivil (y0 m d : Int) : Int :=
  (y0 - (if m ≤ 2 then 1 else 0)) / 400 * 146097 +
    ((y0 - (if m ≤ 2 then 1 else 0)) - (y0 - (if m ≤ 2 then 1 else 0)) / 400 * 400) * 365 +
    ((y0 - (if m ≤ 2 then 1 else 0)) - (y0 - (if m ≤ 2 then 1 else 0)) / 400 * 400) / 4 -
    ((y0 - (if m ≤ 2 then 1 else 0)) - (y0 - (if m ≤ 2 then 1 else 0)) / 400 * 400) / 100 +
    dfcDoy m d - 719468

example : civilFromDays 0 = (1970, 1, 1) := by decide
example : daysFromCivil 1970 1 1 = 0 := by decide
example : civilFromDays 19723 = (2024, 1, 1) := by decide
example : civilFromDays 11016 = (2000, 2, 29) := by decide
example : civilFromDays (-1) = (1969, 12, 31) := by decide
example : civilFromDays (-141427) = (1582, 10, 15) := by decide

/-- The corrected year-of-era guess is in range and its start-of-year brackets
the day-of-era. -/
theorem yoeOf_bounds (doe : Int) (h0 : 0 ≤ doe) (h1 : doe ≤ 146096) :
    0 ≤ yoeOf doe ∧ yoeOf doe ≤ 399 ∧ soyOf (yoeOf doe) ≤ doe ∧
    doe - soyOf (yoeOf doe) ≤ 365 := by
  unfold yoeOf gOf soyOf
  split_ifs <;> omega

/-- The day-of-year of a valid day-of-era is in [0, 365]. -/
theorem doyOf_bounds (doe : Int) (h0 : 0 ≤ doe) (h1 : doe ≤ 146096) :
    0 ≤ doyOf doe ∧ doyOf doe ≤ 365 := by
  obtain ⟨a, b, c, d⟩ := yoeOf_bounds doe h0 h1
  unfold doyOf
  omega

/-- Month/day extraction inverts the 153-day month table, the extracted month
and day are calendar-valid, and the month falls in January/February exactly
when the shifted index reaches 10. -/
theorem monthday_roundtrip (doy : Int) (h0 : 0 ≤ doy) (h1 : doy ≤ 365) :
    dfcDoy (monthOfDoy doy) (dayOfDoy doy) = doy ∧
    (monthOfDoy doy ≤ 2 ↔ 10 ≤ mpOfDoy doy) ∧
    1 ≤ monthOfDoy doy ∧ monthOfDoy doy ≤ 12 ∧
    1 ≤ dayOfDoy doy ∧ dayOfDoy doy ≤ 31 := by
  unfold dfcDoy monthOfDoy dayOfDoy mpOfDoy
  split_ifs <;>
    (try simp only [add_neg_cancel_right, neg_add_cancel_right, add_zero, sub_zero,
      add_sub_cancel_right]) <;>
    omega

/-- `daysFromCivil` inverts `civilParts` on any era and valid day-of-era. -/
theorem civilParts_roundtrip (era doe : Int) (h0 : 0 ≤ doe) (h1 : doe ≤ 146096) :
    daysFromCivil (civilParts era doe).1 (civilParts era doe).2.1
      (civilParts era doe).2.2 = era * 146097 + doe - 719468 := by
  obtain ⟨hy0, hy1, hs0, hs1⟩ := yoeOf_bounds doe h0 h1
  obtain ⟨hd0, hd1⟩ := doyOf_bounds doe h0 h1
  obtain ⟨hrt, hm2, hm1, hm12, hda, hdb⟩ := monthday_roundtrip (doyOf doe) hd0 hd1
  have hdoy : doyOf doe = doe - soyOf (yoeOf doe) := rfl
  unfold civilParts daysFromCivil
  rcases Classical.em (monthOfDoy (doyOf doe) ≤ 2) with hle | hgt
  · rw [if_pos hle]
    have hy : yoeOf doe + era * 400 + 1 - 1 = yoeOf doe + era * 400 := by ring
    rw [hy]
    have hera : (yoeOf doe + era * 400) / 400 = era := by omega
    rw [hera, hrt]
    have hc : yoeOf doe + era * 400 - era * 400 = yoeOf doe := by ring
    rw [hc]
    unfold soyOf at hs0 hs1 hdoy
    omega
  · rw [if_neg hgt]
    have hy : yoeOf doe + era * 400 + 0 - 0 = yoeOf doe + era * 400 := by ring
    rw [hy]
    have hera : (yoeOf doe + era * 400) / 400 = era := by omega
    rw [hera, hrt]
    have hc : yoeOf doe + era * 400 - era * 400 = yoeOf doe := by ring
    rw [hc]
    unfold soyOf at hs0 hs1 hdoy
    omega

/-- `daysFromCivil` inverts `civilFromDays` on every day count. -/
theorem civil_roundtrip (z : Int) :
    daysFromCivil (civilFromDays z).1 (civilFromDays z).2.1 (civilFromDays z).2.2 = z := by
  unfold civilFromDays
  rw [civilParts_roundtrip _ _ (by omega) (by omega)]
  omega

/-- The UTC calendar decomposition of a time value. -/
structure DateParts where
  year : Int
  month : Int
  day : Int
  hour : Int
  minute : Int
  second : Int
  ms : Int
deriving Repr, DecidableEq

/-- Milliseconds per day. -/
def msPerDay : Int := 86400000

/-- Decompose a time value (milliseconds since the Unix epoch) into its UTC
calendar parts, as `toISOString` does. -/
def partsOfMillis (t : Int) : DateParts :=
  ⟨(civilFromDays (t / msPerDay)).1, (civilFromDays (t / msPerDay)).2.1,
   (civilFromDays (t / msPerDay)).2.2,
   t % msPerDay / 3600000, t % msPerDay % 3600000 / 60000,
   t % msPerDay % 60000 / 1000, t % msPerDay % 1000⟩

/-- The instant (milliseconds since the Unix epoch) denoted by UTC calendar
parts: the specification of what an ISO-8601 UTC string means. -/
def millisOfParts (p : DateParts) : Int :=
  daysFromCivil p.year p.month p.day * msPerDay +
    p.hour * 3600000 + p.minute * 60000 + p.second * 1000 + p.ms

/-- The UTC calendar decomposition denotes the instant it was computed from:
serializing a time value to UTC parts loses nothing. -/
theorem millis_roundtrip (t : Int) : millisOfParts (partsOfMillis t) = t := by
  unfold millisOfParts partsOfMillis
  dsimp only
  rw [civil_roundtrip (t / msPerDay)]
  unfold msPerDay
  omega

/-- Zero-pad the decimal rendering of a nonnegative integer to a width. -/
def padTo (w : Nat) (n : Int) : String :=
  String.mk (List.replicate (w - (toString n).length) '0') ++ toString n

/-- Year field of an ISO string as `toISOString` renders it: four digits for
0–9999, otherwise an expanded, signed six-digit year. -/
def yearStr (y : Int) : String :=
  if 0 ≤ y ∧ y ≤ 9999 then padTo 4 y
  else if y < 0 then "-" ++ padTo 6 (-y) else "+" ++ padTo 6 y

/-- Render UTC calendar parts as `YYYY-MM-DDTHH:mm:ss.sssZ`. -/
def renderParts (p : DateParts) : String :=
  yearStr p.year ++ "-" ++ padTo 2 p.month ++ "-" ++ padTo 2 p.day ++ "T" ++
    padTo 2 p.hour ++ ":" ++ padTo 2 p.minute ++ ":" ++ padTo 2 p.second ++ "." ++
    padTo 3 p.ms ++ "Z"

/-- `Date.prototype.toISOString` on a valid time value: the canonical UTC
instant string of the instant. -/
def isoUTC (t : Int) : String := renderParts (partsOfMillis t)

/-- `toISOString` on a modelled `Date`: an Invalid Date throws
`RangeError: Invalid time value`; a valid one renders as UTC. -/
def toISOString : Option Int → Except String String
  | none => .error "Invalid time value"
  | some t => .ok (isoUTC t)

example : isoUTC 0 = "1970-01-01T00:00:00.000Z" := by decide
example : isoUTC 1704099600000 = "2024-01-01T09:00:00.000Z" := by decide
example : isoUTC (-86400000) = "1969-12-31T00:00:00.000Z" := by decide
example : isoUTC 1704128399999 = "2024-01-01T16:59:59.999Z" := by decide

/-!
## Tool handlers

Each registered tool's handler body computes either a payload passed to
`sendResponse("text", ·)` or throws; `responseWrapper` converts the outcome
into the final `CallToolResult`. Handlers are parameterized by the credential
(`apiKey`), the network oracle (`net`) and, for the create/update tools, the
host's `Date`-parsing function (`parse`). Alongside the result they return the
list of fetch calls issued.
-/

/-- Plumbing shared by every tool: wrap the handler body's outcome (payload or
thrown message) through `sendResponse` and `responseWrapper`, carrying the
request log. -/
def mkToolResult (p : Except String JSVal × List ApiRequest) :
    CallToolResult × List ApiRequest :=
  (responseWrapper (p.1.map (sendResponse "text")), p.2)

/-- `get-clockify-user` response reshaping:
`{id, email, name, activeWorkspace, defaultWorkspace}`. -/
def buildUserSummary (response : JSVal) : Except String JSVal := do
  let id ← response.getProp "id"
  let email ← response.getProp "email"
  let name ← response.getProp "name"
  let aw ← response.getProp "activeWorkspace"
  let dw ← response.getProp "defaultWorkspace"
  pure (.obj [("id", id), ("email", email), ("name", name),
              ("activeWorkspace", aw), ("defaultWorkspace", dw)])

/-- `response.map(cb)` on a decoded JSON value: maps over an array; on a
non-array the method is absent and a `TypeError` is thrown. -/
def jsArrayMap (v : JSVal) (f : JSVal → Except String JSVal) : Except String JSVal :=
  match v with
  | .arr xs => (xs.mapM f).map JSVal.arr
  | _ => .error "response.map is not a function"

/-- `get-clockify-user` handler. -/
def getClockifyUser (apiKey : Option String) (net : ApiRequest → FetchOutcome) :
    CallToolResult × List ApiRequest :=
  let r := makeAPIRequest apiKey net "/user" "GET" none
  mkToolResult (r.1.bind buildUserSummary, r.2)

/-- Workspace reshaping: `{id, name}`. -/
def workspaceSummary (workspace : JSVal) : Except String JSVal := do
  let id ← workspace.getProp "id"
  let name ← workspace.getProp "name"
  pure (.obj [("id", id), ("name", name)])

/-- `list-clockify-workspaces` handler. -/
def listClockifyWorkspaces (apiKey : Option String) (net : ApiRequest → FetchOutcome) :
    CallToolResult × List ApiRequest :=
  let r := makeAPIRequest apiKey net "/workspaces" "GET" none
  mkToolResult (r.1.bind (fun response => jsArrayMap response workspaceSummary), r.2)

/-- Validated input of `list-clockify-projects`. -/
structure ListProjectsInput where
  workspaceId : String
  name : Option String

/-- Project reshaping: `{id, name, workspaceId, billable}`. -/
def projectSummary (project : JSVal) : Except String JSVal := do
  let id ← project.getProp "id"
  let name ← project.getProp "name"
  let wsid ← project.getProp "workspaceId"
  let billable ← project.getProp "billable"
  pure (.obj [("id", id), ("name", name), ("workspaceId", wsid),
              ("billable", billable)])

/-- `list-clockify-projects` handler; `input.name || ""` supplies the empty
search string when the optional parameter is absent. -/
def listClockifyProjects (apiKey : Option String) (net : ApiRequest → FetchOutcome)
    (input : ListProjectsInput) : CallToolResult × List ApiRequest :=
  let r := makeAPIRequest apiKey net
    ("/workspaces/" ++ input.workspaceId ++
      "/projects?archived=false&page=1&page-size=5000&name=" ++ input.name.getD "")
    "GET" none
  mkToolResult (r.1.bind (fun response => jsArrayMap response projectSummary), r.2)

/-- Validated input of `list-clockify-tasks`. -/
structure ListTasksInput where
  workspaceId : String
  projectId : String

/-- Task reshaping: `{id, name, projectId}`. -/
def taskSummary (task : JSVal) : Except String JSVal := do
  let id ← task.getProp "id"
  let name ← task.getProp "name"
  let pid ← task.getProp "projectId"
  pure (.obj [("id", id), ("name", name), ("projectId", pid)])

/-- `list-clockify-tasks` handler. -/
def listClockifyTasks (apiKey : Option String) (net : ApiRequest → FetchOutcome)
    (input : ListTasksInput) : CallToolResult × List ApiRequest :=
  let r := makeAPIRequest apiKey net
    ("/workspaces/" ++ input.workspaceId ++ "/projects/" ++ input.projectId ++ "/tasks")
    "GET" none
  mkToolResult (r.1.bind (fun response => jsArrayMap response taskSummary), r.2)

/-- Validated input of `list-clockify-time-entries` (`end` is a Lean keyword,
hence `end_`). -/
structure ListTimeEntriesInput where
  workspaceId : String
  userId : String
  start : String
  end_ : String
  page : Int
  pageSize : Int

/-- `list-clockify-time-entries` handler: the upstream payload is returned
verbatim, with no reshaping. -/
def listClockifyTimeEntries (apiKey : Option String) (net : ApiRequest → FetchOutcome)
    (input : ListTimeEntriesInput) : CallToolResult × List ApiRequest :=
  let r := makeAPIRequest apiKey net
    ("/workspaces/" ++ input.workspaceId ++ "/user/" ++ input.userId ++
      "/time-entries?start=" ++ input.start ++ "&end=" ++ input.end_ ++
      "&page=" ++ toString input.page ++ "&page-size=" ++ toString input.pageSize)
    "GET" none
  mkToolResult r

/-- Created/updated time-entry reshaping: `{id, description, start, end,
projectId}`, with `start`/`end` read from the raw response's nested
`timeInterval` structure. -/
def normalizeTimeEntry (response : JSVal) : Except String JSVal := do
  let id ← response.getProp "id"
  let desc ← response.getProp "description"
  let ti ← response.getProp "timeInterval"
  let s ← ti.getProp "start"
  let e ← ti.getProp "end"
  let pid ← response.getProp "projectId"
  pure (.obj [("id", id), ("description", desc), ("start", s), ("end", e),
              ("projectId", pid)])

/-- Validated input of `create-clockify-time-entry`. -/
structure CreateTimeEntryInput where
  workspaceId : String
  billable : Bool
  description : String
  start : String
  end_ : String
  projectId : String

/-- `create-clockify-time-entry` handler. `new Date(...)` never throws, so it
is evaluated directly as `parse`; `toISOString` is evaluated while the request
body object literal is built, inside the wrapped body and before
`makeAPIRequest` runs, `start` first. -/
def createClockifyTimeEntry (parse : String → Option Int) (apiKey : Option String)
    (net : ApiRequest → FetchOutcome) (input : CreateTimeEntryInput) :
    CallToolResult × List ApiRequest :=
  match toISOString (parse input.start) with
  | .error m => mkToolResult (.error m, [])
  | .ok s =>
    match toISOString (parse input.end_) with
    | .error m => mkToolResult (.error m, [])
    | .ok e =>
      let r := makeAPIRequest apiKey net
        ("/workspaces/" ++ input.workspaceId ++ "/time-entries") "POST"
        (some (.obj [("billable", .boolean input.billable),
                     ("description", .str input.description),
                     ("start", .str s), ("end", .str e),
                     ("projectId", .str input.projectId)]))
      mkToolResult (r.1.bind normalizeTimeEntry, r.2)

/-- Validated input of `update-clockify-time-entry`. -/
structure UpdateTimeEntryInput where
  timeEntryId : String
  workspaceId : String
  billable : Bool
  description : String
  start : String
  end_ : String
  projectId : String

/-- `update-clockify-time-entry` handler. -/
def updateClockifyTimeEntry (parse : String → Option Int) (apiKey : Option String)
    (net : ApiRequest → FetchOutcome) (input : UpdateTimeEntryInput) :
    CallToolResult × List ApiRequest :=
  match toISOString (parse input.start) with
  | .error m => mkToolResult (.error m, [])
  | .ok s =>
    match toISOString (parse input.end_) with
    | .error m => mkToolResult (.error m, [])
    | .ok e =>
      let r := makeAPIRequest apiKey net
        ("/workspaces/" ++ input.workspaceId ++ "/time-entries/" ++ input.timeEntryId)
        "PUT"
        (some (.obj [("billable", .boolean input.billable),
                     ("description", .str input.description),
                     ("start", .str s), ("end", .str e),
                     ("projectId", .str input.projectId)]))
      mkToolResult (r.1.bind normalizeTimeEntry, r.2)

/-- Validated input of `delete-clockify-time-entry`. -/
structure DeleteTimeEntryInput where
  timeEntryId : String
  workspaceId : String

/-- `delete-clockify-time-entry` handler: a fixed success message, ignoring
the gateway's decoded value. -/
def deleteClockifyTimeEntry (apiKey : Option String) (net : ApiRequest → FetchOutcome)
    (input : DeleteTimeEntryInput) : CallToolResult × List ApiRequest :=
  let r := makeAPIRequest apiKey net
    ("/workspaces/" ++ input.workspaceId ++ "/time-entries/" ++ input.timeEntryId)
    "DELETE" none
  mkToolResult
    (r.1.map (fun _ => .obj [("message", .str "Time entry deleted successfully.")]), r.2)

/-!
## Schema validation (spec-modelled)

The parameter schemas are declared in `src/index.ts` (zod), but the code that
enforces them — the MCP SDK's validation of `inputSchema` before a handler is
invoked — is a dependency outside `src/`. It is modelled here from the spec:
"Parameter schema enforces types and required/optional status before the
handler runs; invalid input must be rejected by schema validation with a
descriptive error before any network call is attempted".
-/

/-- A raw, unvalidated tool invocation argument object. -/
def RawInput : Type := List (String × JSVal)

/-- Field lookup in a raw argument object. -/
def getField (raw : RawInput) (k : String) : Option JSVal :=
  (raw.find? (fun p => p.1 == k)).map Prod.snd

/-- Modelled from the spec: a required string parameter (zod `z.string()`):
absent or non-string values are rejected with an error naming the field. -/
def requireString (raw : RawInput) (k : String) : Except String String :=
  match getField raw k with
  | some (.str s) => .ok s
  | some _ => .error (k ++ ": Expected string")
  | none => .error (k ++ ": Required")

/-- Modelled from the spec: an optional numeric parameter with a minimum and a
default (zod `z.number().min(lo).default(d)`): absent yields the default,
non-numbers and out-of-range values are rejected. -/
def numberMinDefault (raw : RawInput) (k : String) (lo d : Int) : Except String Int :=
  match getField raw k with
  | none => .ok d
  | some (.num n) =>
      if n < lo then .error (k ++ ": Number must be at least " ++ toString lo)
      else .ok n
  | some _ => .error (k ++ ": Expected number")

/-- Modelled from the spec: the declared schema of `list-clockify-tasks`
(required `workspaceId` and `projectId` strings). -/
def validateListTasksInput (raw : RawInput) : Except String ListTasksInput := do
  let w ← requireString raw "workspaceId"
  let p ← requireString raw "projectId"
  pure ⟨w, p⟩

/-- Modelled from the spec: the declared schema of
`list-clockify-time-entries` (required `workspaceId`, `userId`, `start`,
`end` strings; `page` ≥ 1 defaulting to 1; `pageSize` ≥ 1 defaulting
to 100). -/
def validateListTimeEntriesInput (raw : RawInput) :
    Except String ListTimeEntriesInput := do
  let w ← requireString raw "workspaceId"
  let u ← requireString raw "userId"
  let s ← requireString raw "start"
  let e ← requireString raw "end"
  let page ← numberMinDefault raw "page" 1 1
  let pageSize ← numberMinDefault raw "pageSize" 1 100
  pure ⟨w, u, s, e, page, pageSize⟩

/-- Modelled from the spec: a schema-level failure is returned to the caller
as a textual error result ("On any failure (schema-level or Gateway-level),
returns a textual result of the form `Error: <message>`"). -/
def validationErrorResult (m : String) : CallToolResult :=
  sendResponse "text" (.str ("Error: " ++ m))

/-- Modelled from the spec: the `list-clockify-tasks` tool as dispatched by
the registry — schema validation runs first, and only a validated input
reaches the handler. -/
def listClockifyTasksTool (apiKey : Option String) (net : ApiRequest → FetchOutcome)
    (raw : RawInput) : CallToolResult × List ApiRequest :=
  match validateListTasksInput raw with
  | .error m => (validationErrorResult m, [])
  | .ok input => listClockifyTasks apiKey net input

/-- Modelled from the spec: the `list-clockify-time-entries` tool as
dispatched by the registry. -/
def listClockifyTimeEntriesTool (apiKey : Option String)
    (net : ApiRequest → FetchOutcome) (raw : RawInput) :
    CallToolResult × List ApiRequest :=
  match validateListTimeEntriesInput raw with
  | .error m => (validationErrorResult m, [])
  | .ok input => listClockifyTimeEntries apiKey net input

/-- Modelled from the spec: an optional string parameter
(zod `z.string().optional()`): absent is allowed, a present non-string value
is rejected. -/
def optionalString (raw : RawInput) (k : String) : Except String (Option String) :=
  match getField raw k with
  | none => .ok none
  | some (.str s) => .ok (some s)
  | some _ => .error (k ++ ": Expected string")

/-- Modelled from the spec: an optional boolean parameter with a default
(zod `z.boolean().optional().default(d)`): absent yields the default, a
present non-boolean value is rejected. -/
def booleanDefault (raw : RawInput) (k : String) (d : Bool) : Except String Bool :=
  match getField raw k with
  | none => .ok d
  | some (.boolean b) => .ok b
  | some _ => .error (k ++ ": Expected boolean")

/-- Modelled from the spec: the declared schema of `list-clockify-projects`
(required `workspaceId` string, optional `name` string). -/
def validateListProjectsInput (raw : RawInput) : Except String ListProjectsInput := do
  let w ← requireString raw "workspaceId"
  let name ← optionalString raw "name"
  pure ⟨w, name⟩

/-- Modelled from the spec: the declared schema of
`create-clockify-time-entry` (required `workspaceId`, `description`, `start`,
`end`, `projectId` strings; `billable` boolean defaulting to true). -/
def validateCreateTimeEntryInput (raw : RawInput) :
    Except String CreateTimeEntryInput := do
  let w ← requireString raw "workspaceId"
  let b ← booleanDefault raw "billable" true
  let d ← requireString raw "description"
  let s ← requireString raw "start"
  let e ← requireString raw "end"
  let p ← requireString raw "projectId"
  pure ⟨w, b, d, s, e, p⟩

/-- Modelled from the spec: the declared schema of
`update-clockify-time-entry` (required `timeEntryId`, `workspaceId`,
`description`, `start`, `end`, `projectId` strings; `billable` boolean
defaulting to true). -/
def validateUpdateTimeEntryInput (raw : RawInput) :
    Except String UpdateTimeEntryInput := do
  let t ← requireString raw "timeEntryId"
  let w ← requireString raw "workspaceId"
  let b ← booleanDefault raw "billable" true
  let d ← requireString raw "description"
  let s ← requireString raw "start"
  let e ← requireString raw "end"
  let p ← requireString raw "projectId"
  pure ⟨t, w, b, d, s, e, p⟩

/-- Modelled from the spec: the declared schema of
`delete-clockify-time-entry` (required `timeEntryId` and `workspaceId`
strings). -/
def validateDeleteTimeEntryInput (raw : RawInput) :
    Except String DeleteTimeEntryInput := do
  let t ← requireString raw "timeEntryId"
  let w ← requireString raw "workspaceId"
  pure ⟨t, w⟩

/-- Modelled from the spec: the `list-clockify-projects` tool as dispatched by
the registry. -/
def listClockifyProjectsTool (apiKey : Option String)
    (net : ApiRequest → FetchOutcome) (raw : RawInput) :
    CallToolResult × List ApiRequest :=
  match validateListProjectsInput raw with
  | .error m => (validationErrorResult m, [])
  | .ok input => listClockifyProjects apiKey net input

/-- Modelled from the spec: the `create-clockify-time-entry` tool as
dispatched by the registry. -/
def createClockifyTimeEntryTool (parse : String → Option Int)
    (apiKey : Option String) (net : ApiRequest → FetchOutcome) (raw : RawInput) :
    CallToolResult × List ApiRequest :=
  match validateCreateTimeEntryInput raw with
  | .error m => (validationErrorResult m, [])
  | .ok input => createClockifyTimeEntry parse apiKey net input

/-- Modelled from the spec: the `update-clockify-time-entry` tool as
dispatched by the registry. -/
def updateClockifyTimeEntryTool (parse : String → Option Int)
    (apiKey : Option String) (net : ApiRequest → FetchOutcome) (raw : RawInput) :
    CallToolResult × List ApiRequest :=
  match validateUpdateTimeEntryInput raw with
  | .error m => (validationErrorResult m, [])
  | .ok input => updateClockifyTimeEntry parse apiKey net input

/-- Modelled from the spec: the `delete-clockify-time-entry` tool as
dispatched by the registry. -/
def deleteClockifyTimeEntryTool (apiKey : Option String)
    (net : ApiRequest → FetchOutcome) (raw : RawInput) :
    CallToolResult × List ApiRequest :=
  match validateDeleteTimeEntryInput raw with
  | .error m => (validationErrorResult m, [])
  | .ok input => deleteClockifyTimeEntry apiKey net input

/-!
## Theorems
-/

/-- Evaluation of `makeAPIRequest` once the credential check has passed. -/
theorem makeAPIRequest_some (key : String) (net : ApiRequest → FetchOutcome)
    (url method : String) (body : Option JSVal) (hkey : key ≠ "") :
    makeAPIRequest (some key) net url method body =
      (match net ⟨CLOCKIFY_API_BASE ++ url, method, body⟩ with
       | .networkFailure msg =>
           (Except.error ("Error making Clockify API request: " ++ msg),
            [⟨CLOCKIFY_API_BASE ++ url, method, body⟩])
       | .success resp =>
           if ¬ (200 ≤ resp.status ∧ resp.status < 300) then
             (Except.error ("Error making Clockify API request: " ++
               "HTTP error! status: " ++ toString resp.status ++
               ", response: " ++ resp.bodyText),
              [⟨CLOCKIFY_API_BASE ++ url, method, body⟩])
           else if resp.status = 204 then
             (Except.ok (JSVal.obj []), [⟨CLOCKIFY_API_BASE ++ url, method, body⟩])
           else
             match resp.jsonBody with
             | .ok j => (Except.ok j, [⟨CLOCKIFY_API_BASE ++ url, method, body⟩])
             | .error m =>
                 (Except.error ("Error making Clockify API request: " ++ m),
                  [⟨CLOCKIFY_API_BASE ++ url, method, body⟩])) := by
  unfold makeAPIRequest
  dsimp only
  rw [if_neg hkey]

/-- Whenever the credential check passes, exactly one fetch is issued,
whatever its outcome. -/
theorem makeAPIRequest_log (key : String) (net : ApiRequest → FetchOutcome)
    (url method : String) (body : Option JSVal) (hkey : key ≠ "") :
    (makeAPIRequest (some key) net url method body).2 =
      [⟨CLOCKIFY_API_BASE ++ url, method, body⟩] := by
  rw [makeAPIRequest_some key net url method body hkey]
  rcases net ⟨CLOCKIFY_API_BASE ++ url, method, body⟩ with resp | m
  · dsimp only
    split_ifs <;> (try rfl)
    rcases resp.jsonBody with j | m <;> rfl
  · rfl

/-- Evaluation of `makeAPIRequest` on a non-success response status. -/
theorem makeAPIRequest_http_error (key : String) (net : ApiRequest → FetchOutcome)
    (url method : String) (body : Option JSVal) (resp : HttpResponse)
    (hkey : key ≠ "")
    (hnet : net ⟨CLOCKIFY_API_BASE ++ url, method, body⟩ = .success resp)
    (hbad : resp.status < 200 ∨ 300 ≤ resp.status) :
    makeAPIRequest (some key) net url method body =
      (Except.error ("Error making Clockify API request: " ++
        "HTTP error! status: " ++ toString resp.status ++
        ", response: " ++ resp.bodyText),
       [⟨CLOCKIFY_API_BASE ++ url, method, body⟩]) := by
  rw [makeAPIRequest_some key net url method body hkey, hnet]
  dsimp only
  rw [if_pos (by omega : ¬ (200 ≤ resp.status ∧ resp.status < 300))]

/-- Evaluation of `makeAPIRequest` on a 204 response. -/
theorem makeAPIRequest_204 (key : String) (net : ApiRequest → FetchOutcome)
    (url method : String) (body : Option JSVal) (resp : HttpResponse)
    (hkey : key ≠ "")
    (hnet : net ⟨CLOCKIFY_API_BASE ++ url, method, body⟩ = .success resp)
    (h204 : resp.status = 204) :
    makeAPIRequest (some key) net url method body =
      (Except.ok (JSVal.obj []), [⟨CLOCKIFY_API_BASE ++ url, method, body⟩]) := by
  rw [makeAPIRequest_some key net url method body hkey, hnet]
  dsimp only
  rw [if_neg (by omega : ¬ ¬ (200 ≤ resp.status ∧ resp.status < 300)), if_pos h204]

/-- Evaluation of `makeAPIRequest` on a non-204 success response whose body
parses as JSON. -/
theorem makeAPIRequest_json (key : String) (net : ApiRequest → FetchOutcome)
    (url method : String) (body : Option JSVal) (resp : HttpResponse) (j : JSVal)
    (hkey : key ≠ "")
    (hnet : net ⟨CLOCKIFY_API_BASE ++ url, method, body⟩ = .success resp)
    (hok : 200 ≤ resp.status) (hlt : resp.status < 300) (hne : resp.status ≠ 204)
    (hjson : resp.jsonBody = .ok j) :
    makeAPIRequest (some key) net url method body =
      (Except.ok j, [⟨CLOCKIFY_API_BASE ++ url, method, body⟩]) := by
  rw [makeAPIRequest_some key net url method body hkey, hnet]
  dsimp only
  rw [if_neg (by omega : ¬ ¬ (200 ≤ resp.status ∧ resp.status < 300)), if_neg hne, hjson]

/-- C1: `responseWrapper` wraps every handler invocation: a successful
handler result is returned unchanged, and any failure of the wrapped body
(whatever its kind) becomes a normal result whose single text payload is
exactly the failure message prefixed with `Error: `. `responseWrapper` is a
total function into `CallToolResult`, so no exception passes it to the
transport layer. -/
theorem c1_responseWrapper_contract :
    ∀ (res : CallToolResult) (m : String),
      responseWrapper (.ok res) = res ∧
      responseWrapper (.error m) = ⟨[⟨"text", "Error: " ++ m⟩]⟩ := by
  intro res m
  exact ⟨rfl, rfl⟩

/-- C2: with the credential unset or set to the empty string, every Gateway
call fails immediately with the configuration error, and the request log is
empty — no fetch is issued, whatever the network oracle would answer. -/
theorem c2_missing_credential :
    ∀ (net : ApiRequest → FetchOutcome) (url method : String) (body : Option JSVal),
      makeAPIRequest none net url method body =
        (.error "Missing Clockify API key", []) ∧
      makeAPIRequest (some "") net url method body =
        (.error "Missing Clockify API key", []) := by
  intro net url method body
  exact ⟨rfl, rfl⟩

/-- C3: on a response status outside [200, 300), the Gateway call fails with
an error whose message embeds both the numeric status (`toString resp.status`)
and the raw body text (`resp.bodyText`) as concatenands, and no parsed JSON is
ever returned. -/
theorem c3_upstream_error (key : String) (net : ApiRequest → FetchOutcome)
    (url method : String) (body : Option JSVal) (resp : HttpResponse)
    (hkey : key ≠ "")
    (hnet : net ⟨CLOCKIFY_API_BASE ++ url, method, body⟩ = .success resp)
    (hbad : resp.status < 200 ∨ 300 ≤ resp.status) :
    makeAPIRequest (some key) net url method body =
      (Except.error ("Error making Clockify API request: " ++
        "HTTP error! status: " ++ toString resp.status ++
        ", response: " ++ resp.bodyText),
       [⟨CLOCKIFY_API_BASE ++ url, method, body⟩]) ∧
    ∀ j, (makeAPIRequest (some key) net url method body).1 ≠ Except.ok j := by
  have h := makeAPIRequest_http_error key net url method body resp hkey hnet hbad
  refine ⟨?_, ?_⟩
  · rw [h]
  · intro j hj
    rw [h] at hj
    exact Except.noConfusion hj

/-- Witness for C3 at a concrete 500 response. -/
theorem c3_upstream_error_witness :
    makeAPIRequest (some "k") (fun _ => .success ⟨500, "boom", .error "x"⟩)
        "/user" "GET" none =
      (Except.error ("Error making Clockify API request: " ++
        "HTTP error! status: " ++ toString (500 : Nat) ++
        ", response: " ++ "boom"),
       [⟨CLOCKIFY_API_BASE ++ "/user", "GET", none⟩]) ∧
    ∀ j, (makeAPIRequest (some "k") (fun _ => .success ⟨500, "boom", .error "x"⟩)
        "/user" "GET" none).1 ≠ Except.ok j :=
  c3_upstream_error "k" (fun _ => .success ⟨500, "boom", .error "x"⟩)
    "/user" "GET" none ⟨500, "boom", .error "x"⟩ (by decide) rfl (by decide)

/-- C7: on a success status, a 204 response yields the empty object without
the body ever being JSON-parsed (the decode outcome is irrelevant), and any
other success status yields the parsed JSON body. -/
theorem c7_success_decoding (key : String) (net : ApiRequest → FetchOutcome)
    (url method : String) (body : Option JSVal) (resp : HttpResponse) (j : JSVal)
    (hkey : key ≠ "")
    (hnet : net ⟨CLOCKIFY_API_BASE ++ url, method, body⟩ = .success resp) :
    (resp.status = 204 →
      makeAPIRequest (some key) net url method body =
        (Except.ok (JSVal.obj []), [⟨CLOCKIFY_API_BASE ++ url, method, body⟩])) ∧
    (200 ≤ resp.status → resp.status < 300 → resp.status ≠ 204 →
      resp.jsonBody = .ok j →
      makeAPIRequest (some key) net url method body =
        (Except.ok j, [⟨CLOCKIFY_API_BASE ++ url, method, body⟩])) := by
  refine ⟨fun h204 => ?_, fun hok hlt hne hjson => ?_⟩
  · exact makeAPIRequest_204 key net url method body resp hkey hnet h204
  · exact makeAPIRequest_json key net url method body resp j hkey hnet hok hlt hne hjson

/-- Witness for C7: a 204 with an undecodable body still yields the empty
object, and a 200 with a JSON body yields that body. -/
theorem c7_success_decoding_witness :
    makeAPIRequest (some "k")
        (fun _ => .success ⟨204, "", .error "Unexpected end of JSON input"⟩)
        "/w" "DELETE" none =
      (Except.ok (JSVal.obj []), [⟨CLOCKIFY_API_BASE ++ "/w", "DELETE", none⟩]) ∧
    makeAPIRequest (some "k") (fun _ => .success ⟨200, "5", .ok (.num 5)⟩)
        "/u" "GET" none =
      (Except.ok (.num 5), [⟨CLOCKIFY_API_BASE ++ "/u", "GET", none⟩]) :=
  ⟨(c7_success_decoding "k"
      (fun _ => .success ⟨204, "", .error "Unexpected end of JSON input"⟩)
      "/w" "DELETE" none ⟨204, "", .error "Unexpected end of JSON input"⟩ (.obj [])
      (by decide) rfl).1 rfl,
   (c7_success_decoding "k" (fun _ => .success ⟨200, "5", .ok (.num 5)⟩)
      "/u" "GET" none ⟨200, "5", .ok (.num 5)⟩ (.num 5)
      (by decide) rfl).2 (by decide) (by decide) (by decide) rfl⟩

/-- C9 counterexample: a success status alone does not guarantee the fixed
success message. On a 200 response whose (empty) body fails JSON decoding,
`response.json()` rejects inside the gateway and the tool returns an `Error: `
text result instead of the fixed message — so "for any upstream body content"
is false as stated. -/
theorem c9_counterexample :
    (deleteClockifyTimeEntry (some "k")
        (fun _ => .success ⟨200, "", .error "Unexpected end of JSON input"⟩)
        ⟨"t1", "w1"⟩).1 =
      ⟨[⟨"text",
        "Error: Error making Clockify API request: Unexpected end of JSON input"⟩]⟩ ∧
    (deleteClockifyTimeEntry (some "k")
        (fun _ => .success ⟨200, "", .error "Unexpected end of JSON input"⟩)
        ⟨"t1", "w1"⟩).1 ≠
      sendResponse "text" (.obj [("message", .str "Time entry deleted successfully.")]) := by
  exact ⟨rfl, by decide⟩

/-- C9 (amended): on a success outcome the gateway accepts — a 204, or any
success status whose body decodes as JSON — `delete-clockify-time-entry`
returns exactly the fixed success message, incorporating nothing from the
upstream response. -/
theorem c9_delete_fixed_message (key : String) (net : ApiRequest → FetchOutcome)
    (input : DeleteTimeEntryInput) (resp : HttpResponse) (j : JSVal)
    (hkey : key ≠ "")
    (hnet : net ⟨CLOCKIFY_API_BASE ++
      ("/workspaces/" ++ input.workspaceId ++ "/time-entries/" ++ input.timeEntryId),
      "DELETE", none⟩ = .success resp)
    (hok : 200 ≤ resp.status) (hlt : resp.status < 300)
    (hbody : resp.status = 204 ∨ resp.jsonBody = .ok j) :
    (deleteClockifyTimeEntry (some key) net input).1 =
      sendResponse "text" (.obj [("message", .str "Time entry deleted successfully.")]) := by
  unfold deleteClockifyTimeEntry
  by_cases h204 : resp.status = 204
  · rw [makeAPIRequest_204 key net _ "DELETE" none resp hkey hnet h204]
    rfl
  · rcases hbody with h | hjson
    · exact absurd h h204
    · rw [makeAPIRequest_json key net _ "DELETE" none resp j hkey hnet hok hlt h204 hjson]
      rfl

/-- Witness for C9's amended claim: the fixed message on a 204 (with an
undecodable empty body) and on a 200 carrying a JSON body. -/
theorem c9_delete_fixed_message_witness :
    (deleteClockifyTimeEntry (some "k")
        (fun _ => .success ⟨204, "", .error "Unexpected end of JSON input"⟩)
        ⟨"t1", "w1"⟩).1 =
      sendResponse "text" (.obj [("message", .str "Time entry deleted successfully.")]) ∧
    (deleteClockifyTimeEntry (some "k")
        (fun _ => .success ⟨200, "x", .ok (.obj [("seen", .boolean true)])⟩)
        ⟨"t1", "w1"⟩).1 =
      sendResponse "text" (.obj [("message", .str "Time entry deleted successfully.")]) :=
  ⟨c9_delete_fixed_message "k"
      (fun _ => .success ⟨204, "", .error "Unexpected end of JSON input"⟩)
      ⟨"t1", "w1"⟩ ⟨204, "", .error "Unexpected end of JSON input"⟩ (.obj [])
      (by decide) rfl (by decide) (by decide) (Or.inl rfl),
   c9_delete_fixed_message "k"
      (fun _ => .success ⟨200, "x", .ok (.obj [("seen", .boolean true)])⟩)
      ⟨"t1", "w1"⟩ ⟨200, "x", .ok (.obj [("seen", .boolean true)])⟩
      (.obj [("seen", .boolean true)])
      (by decide) rfl (by decide) (by decide) (Or.inr rfl)⟩

/-- Whatever outcome a tool body produced, the wrapped result has exactly one
content item, of type `text`, whose text is a string. -/
theorem mkToolResult_single (p : Except String JSVal × List ApiRequest) :
    ∃ s, (mkToolResult p).1.content = [⟨"text", s⟩] := by
  rcases p with ⟨r | v, log⟩
  · exact ⟨"Error: " ++ r, rfl⟩
  · exact ⟨payloadText v, rfl⟩

/-- C10: every tool handler, on every input, credential, parse function and
upstream outcome, returns a result whose content is exactly one `text` item
carrying a string; string payloads pass through `sendResponse` unchanged and
object payloads are JSON-serialized. -/
theorem c10_single_text_result :
    ∀ (apiKey : Option String) (net : ApiRequest → FetchOutcome)
      (parse : String → Option Int) (pin : ListProjectsInput)
      (tin : ListTasksInput) (lin : ListTimeEntriesInput)
      (cin : CreateTimeEntryInput) (uin : UpdateTimeEntryInput)
      (din : DeleteTimeEntryInput),
      (∃ s, (getClockifyUser apiKey net).1.content = [⟨"text", s⟩]) ∧
      (∃ s, (listClockifyWorkspaces apiKey net).1.content = [⟨"text", s⟩]) ∧
      (∃ s, (listClockifyProjects apiKey net pin).1.content = [⟨"text", s⟩]) ∧
      (∃ s, (listClockifyTasks apiKey net tin).1.content = [⟨"text", s⟩]) ∧
      (∃ s, (listClockifyTimeEntries apiKey net lin).1.content = [⟨"text", s⟩]) ∧
      (∃ s, (createClockifyTimeEntry parse apiKey net cin).1.content = [⟨"text", s⟩]) ∧
      (∃ s, (updateClockifyTimeEntry parse apiKey net uin).1.content = [⟨"text", s⟩]) ∧
      (∃ s, (deleteClockifyTimeEntry apiKey net din).1.content = [⟨"text", s⟩]) ∧
      (∀ s, sendResponse "text" (.str s) = ⟨[⟨"text", s⟩]⟩) ∧
      (∀ fs, sendResponse "text" (.obj fs) = ⟨[⟨"text", JSVal.stringify (.obj fs)⟩]⟩) := by
  intro apiKey net parse pin tin lin cin uin din
  refine ⟨mkToolResult_single _, mkToolResult_single _, mkToolResult_single _,
    mkToolResult_single _, mkToolResult_single _, ?_, ?_, mkToolResult_single _,
    fun s => rfl, fun fs => rfl⟩
  · unfold createClockifyTimeEntry
    cases toISOString (parse cin.start) with
    | error m => exact mkToolResult_single _
    | ok s1 =>
      cases toISOString (parse cin.end_) with
      | error m => exact mkToolResult_single _
      | ok s2 => exact mkToolResult_single _
  · unfold updateClockifyTimeEntry
    cases toISOString (parse uin.start) with
    | error m => exact mkToolResult_single _
    | ok s1 =>
      cases toISOString (parse uin.end_) with
      | error m => exact mkToolResult_single _
      | ok s2 => exact mkToolResult_single _

/-- C5 counterexample: with an unparseable `start` (modelled by a host parse
function rejecting every string, as V8 rejects `"not-a-date"`), the
create handler issues no Gateway request at all — the request log is empty and
the result is the locally-thrown `Error: Invalid time value` — refuting
"the malformed-payload condition is surfaced to the Gateway's request and the
upstream service rejects it". -/
theorem c5_counterexample :
    (createClockifyTimeEntry (fun _ => none) (some "k")
        (fun _ => .success ⟨200, "[]", .ok (.arr [])⟩)
        ⟨"w1", true, "work", "not-a-date", "also-not-a-date", "p1"⟩).2 = [] ∧
    (createClockifyTimeEntry (fun _ => none) (some "k")
        (fun _ => .success ⟨200, "[]", .ok (.arr [])⟩)
        ⟨"w1", true, "work", "not-a-date", "also-not-a-date", "p1"⟩).1 =
      ⟨[⟨"text", "Error: Invalid time value"⟩]⟩ :=
  ⟨rfl, rfl⟩

/-- C5 (amended): when `start` or `end` fails to parse as a date,
serialization throws locally (`Invalid time value`), the error wrapper turns
it into an `Error: ` text result, and no Gateway request is issued — the
upstream service never sees the invocation. -/
theorem c5_invalid_date_local (parse : String → Option Int) (apiKey : Option String)
    (net : ApiRequest → FetchOutcome) (cin : CreateTimeEntryInput)
    (uin : UpdateTimeEntryInput) :
    (parse cin.start = none →
      createClockifyTimeEntry parse apiKey net cin =
        (⟨[⟨"text", "Error: Invalid time value"⟩]⟩, [])) ∧
    (∀ t, parse cin.start = some t → parse cin.end_ = none →
      createClockifyTimeEntry parse apiKey net cin =
        (⟨[⟨"text", "Error: Invalid time value"⟩]⟩, [])) ∧
    (parse uin.start = none →
      updateClockifyTimeEntry parse apiKey net uin =
        (⟨[⟨"text", "Error: Invalid time value"⟩]⟩, [])) ∧
    (∀ t, parse uin.start = some t → parse uin.end_ = none →
      updateClockifyTimeEntry parse apiKey net uin =
        (⟨[⟨"text", "Error: Invalid time value"⟩]⟩, [])) := by
  refine ⟨fun h => ?_, fun t h1 h2 => ?_, fun h => ?_, fun t h1 h2 => ?_⟩
  · unfold createClockifyTimeEntry
    rw [h]
    rfl
  · unfold createClockifyTimeEntry
    rw [h1, h2]
    rfl
  · unfold updateClockifyTimeEntry
    rw [h]
    rfl
  · unfold updateClockifyTimeEntry
    rw [h1, h2]
    rfl

/-- Witness for C5's amended claim at concrete parse outcomes. -/
theorem c5_invalid_date_local_witness :
    createClockifyTimeEntry (fun s => if s = "2024-01-01T09:00:00" then some 0 else none)
        (some "k") (fun _ => .networkFailure "unreachable")
        ⟨"w", true, "d", "bad", "2024-01-01T09:00:00", "p"⟩ =
      (⟨[⟨"text", "Error: Invalid time value"⟩]⟩, []) ∧
    createClockifyTimeEntry (fun s => if s = "2024-01-01T09:00:00" then some 0 else none)
        (some "k") (fun _ => .networkFailure "unreachable")
        ⟨"w", true, "d", "2024-01-01T09:00:00", "bad", "p"⟩ =
      (⟨[⟨"text", "Error: Invalid time value"⟩]⟩, []) ∧
    updateClockifyTimeEntry (fun s => if s = "2024-01-01T09:00:00" then some 0 else none)
        (some "k") (fun _ => .networkFailure "unreachable")
        ⟨"t", "w", true, "d", "bad", "2024-01-01T09:00:00", "p"⟩ =
      (⟨[⟨"text", "Error: Invalid time value"⟩]⟩, []) ∧
    updateClockifyTimeEntry (fun s => if s = "2024-01-01T09:00:00" then some 0 else none)
        (some "k") (fun _ => .networkFailure "unreachable")
        ⟨"t", "w", true, "d", "2024-01-01T09:00:00", "bad", "p"⟩ =
      (⟨[⟨"text", "Error: Invalid time value"⟩]⟩, []) :=
  ⟨(c5_invalid_date_local _ _ _
      ⟨"w", true, "d", "bad", "2024-01-01T09:00:00", "p"⟩
      ⟨"t", "w", true, "d", "bad", "2024-01-01T09:00:00", "p"⟩).1 (by decide),
   (c5_invalid_date_local _ _ _
      ⟨"w", true, "d", "2024-01-01T09:00:00", "bad", "p"⟩
      ⟨"t", "w", true, "d", "bad", "2024-01-01T09:00:00", "p"⟩).2.1 0 (by decide) (by decide),
   (c5_invalid_date_local _ _ _
      ⟨"w", true, "d", "bad", "2024-01-01T09:00:00", "p"⟩
      ⟨"t", "w", true, "d", "bad", "2024-01-01T09:00:00", "p"⟩).2.2.1 (by decide),
   (c5_invalid_date_local _ _ _
      ⟨"w", true, "d", "bad", "2024-01-01T09:00:00", "p"⟩
      ⟨"t", "w", true, "d", "2024-01-01T09:00:00", "bad", "p"⟩).2.2.2 0 (by decide) (by decide)⟩

/-- C6: with parseable `start`/`end`, the transmitted request body of both
create and update carries `start` and `end` fields equal to `isoUTC` of the
parsed instants — the parsed time values serialized to canonical UTC instant
strings, unchanged — and, by `millisOfParts (partsOfMillis t) = t`, the UTC
calendar parts rendered into those strings denote exactly the parsed
instants: the round trip preserves the instant. -/
theorem c6_utc_instants (parse : String → Option Int) (key : String)
    (net : ApiRequest → FetchOutcome) (cin : CreateTimeEntryInput)
    (uin : UpdateTimeEntryInput) (t1 t2 u1 u2 : Int)
    (hkey : key ≠ "")
    (h1 : parse cin.start = some t1) (h2 : parse cin.end_ = some t2)
    (h3 : parse uin.start = some u1) (h4 : parse uin.end_ = some u2) :
    (createClockifyTimeEntry parse (some key) net cin).2 =
      [⟨CLOCKIFY_API_BASE ++ ("/workspaces/" ++ cin.workspaceId ++ "/time-entries"),
        "POST",
        some (.obj [("billable", .boolean cin.billable),
                    ("description", .str cin.description),
                    ("start", .str (isoUTC t1)), ("end", .str (isoUTC t2)),
                    ("projectId", .str cin.projectId)])⟩] ∧
    (updateClockifyTimeEntry parse (some key) net uin).2 =
      [⟨CLOCKIFY_API_BASE ++
          ("/workspaces/" ++ uin.workspaceId ++ "/time-entries/" ++ uin.timeEntryId),
        "PUT",
        some (.obj [("billable", .boolean uin.billable),
                    ("description", .str uin.description),
                    ("start", .str (isoUTC u1)), ("end", .str (isoUTC u2)),
                    ("projectId", .str uin.projectId)])⟩] ∧
    millisOfParts (partsOfMillis t1) = t1 ∧ millisOfParts (partsOfMillis t2) = t2 ∧
    millisOfParts (partsOfMillis u1) = u1 ∧ millisOfParts (partsOfMillis u2) = u2 := by
  refine ⟨?_, ?_, millis_roundtrip t1, millis_roundtrip t2,
    millis_roundtrip u1, millis_roundtrip u2⟩
  · unfold createClockifyTimeEntry
    rw [h1, h2]
    show (mkToolResult _).2 = _
    unfold mkToolResult
    exact makeAPIRequest_log key net _ "POST" _ hkey
  · unfold updateClockifyTimeEntry
    rw [h3, h4]
    show (mkToolResult _).2 = _
    unfold mkToolResult
    exact makeAPIRequest_log key net _ "PUT" _ hkey

/-- Reduction of a monadic bind on a successful `Except`. -/
theorem exceptOkBind {a b : Type} (x : a) (f : a → Except String b) :
    (Except.ok x >>= f) = f x := rfl

/-- Evaluation of the time-entry normalizer on a response carrying the
expected fields. -/
theorem normalizeTimeEntry_eval (j tiv idv dv sv ev pv : JSVal)
    (hid : j.getProp "id" = .ok idv)
    (hdesc : j.getProp "description" = .ok dv)
    (hti : j.getProp "timeInterval" = .ok tiv)
    (hs : tiv.getProp "start" = .ok sv)
    (he : tiv.getProp "end" = .ok ev)
    (hpid : j.getProp "projectId" = .ok pv) :
    normalizeTimeEntry j =
      .ok (.obj [("id", idv), ("description", dv), ("start", sv), ("end", ev),
                 ("projectId", pv)]) := by
  unfold normalizeTimeEntry
  simp only [hid, hdesc, hti, hs, he, hpid, exceptOkBind]
  rfl

/-- C8: on a successful create or update whose raw response carries the
top-level `id`, `description`, `projectId` fields and a nested `timeInterval`
with `start`/`end`, the normalized result is exactly
`{id, description, start, end, projectId}` drawn from those places. -/
theorem c8_normalized_entry (parse : String → Option Int) (key : String)
    (net : ApiRequest → FetchOutcome) (cin : CreateTimeEntryInput)
    (uin : UpdateTimeEntryInput) (t1 t2 u1 u2 : Int)
    (resp uresp : HttpResponse) (j uj tiv utiv idv dv sv ev pv uidv udv usv uev upv : JSVal)
    (hkey : key ≠ "")
    (h1 : parse cin.start = some t1) (h2 : parse cin.end_ = some t2)
    (h3 : parse uin.start = some u1) (h4 : parse uin.end_ = some u2)
    (hnetC : net ⟨CLOCKIFY_API_BASE ++ ("/workspaces/" ++ cin.workspaceId ++ "/time-entries"),
      "POST",
      some (.obj [("billable", .boolean cin.billable), ("description", .str cin.description),
                  ("start", .str (isoUTC t1)), ("end", .str (isoUTC t2)),
                  ("projectId", .str cin.projectId)])⟩ = .success resp)
    (hokC : 200 ≤ resp.status) (hltC : resp.status < 300) (hneC : resp.status ≠ 204)
    (hjC : resp.jsonBody = .ok j)
    (hid : j.getProp "id" = .ok idv) (hdesc : j.getProp "description" = .ok dv)
    (hti : j.getProp "timeInterval" = .ok tiv) (hs : tiv.getProp "start" = .ok sv)
    (he : tiv.getProp "end" = .ok ev) (hpid : j.getProp "projectId" = .ok pv)
    (hnetU : net ⟨CLOCKIFY_API_BASE ++
      ("/workspaces/" ++ uin.workspaceId ++ "/time-entries/" ++ uin.timeEntryId),
      "PUT",
      some (.obj [("billable", .boolean uin.billable), ("description", .str uin.description),
                  ("start", .str (isoUTC u1)), ("end", .str (isoUTC u2)),
                  ("projectId", .str uin.projectId)])⟩ = .success uresp)
    (hokU : 200 ≤ uresp.status) (hltU : uresp.status < 300) (hneU : uresp.status ≠ 204)
    (hjU : uresp.jsonBody = .ok uj)
    (huid : uj.getProp "id" = .ok uidv) (hudesc : uj.getProp "description" = .ok udv)
    (huti : uj.getProp "timeInterval" = .ok utiv) (hus : utiv.getProp "start" = .ok usv)
    (hue : utiv.getProp "end" = .ok uev) (hupid : uj.getProp "projectId" = .ok upv) :
    (createClockifyTimeEntry parse (some key) net cin).1 =
      sendResponse "text"
        (.obj [("id", idv), ("description", dv), ("start", sv), ("end", ev),
               ("projectId", pv)]) ∧
    (updateClockifyTimeEntry parse (some key) net uin).1 =
      sendResponse "text"
        (.obj [("id", uidv), ("description", udv), ("start", usv), ("end", uev),
               ("projectId", upv)]) := by
  constructor
  · unfold createClockifyTimeEntry
    rw [h1, h2]
    show (mkToolResult _).1 = _
    rw [makeAPIRequest_json key net _ "POST" _ resp j hkey hnetC hokC hltC hneC hjC]
    show (mkToolResult ((Except.ok j).bind normalizeTimeEntry, _)).1 = _
    rw [show (Except.ok j).bind normalizeTimeEntry = normalizeTimeEntry j from rfl,
      normalizeTimeEntry_eval j tiv idv dv sv ev pv hid hdesc hti hs he hpid]
    rfl
  · unfold updateClockifyTimeEntry
    rw [h3, h4]
    show (mkToolResult _).1 = _
    rw [makeAPIRequest_json key net _ "PUT" _ uresp uj hkey hnetU hokU hltU hneU hjU]
    show (mkToolResult ((Except.ok uj).bind normalizeTimeEntry, _)).1 = _
    rw [show (Except.ok uj).bind normalizeTimeEntry = normalizeTimeEntry uj from rfl,
      normalizeTimeEntry_eval uj utiv uidv udv usv uev upv huid hudesc huti hus hue hupid]
    rfl

/-- Witness for C6 at the spec's round-trip example instants. -/
theorem c6_utc_instants_witness :
    (createClockifyTimeEntry
        (fun s => if s = "2024-01-01T09:00:00" then some 1704099600000
                  else if s = "2024-01-01T17:00:00" then some 1704128400000 else none)
        (some "k") (fun _ => .networkFailure "down")
        ⟨"w1", true, "work", "2024-01-01T09:00:00", "2024-01-01T17:00:00", "p1"⟩).2 =
      [⟨CLOCKIFY_API_BASE ++ ("/workspaces/" ++ "w1" ++ "/time-entries"), "POST",
        some (.obj [("billable", .boolean true), ("description", .str "work"),
                    ("start", .str (isoUTC 1704099600000)),
                    ("end", .str (isoUTC 1704128400000)),
                    ("projectId", .str "p1")])⟩] ∧
    millisOfParts (partsOfMillis 1704099600000) = 1704099600000 :=
  ⟨(c6_utc_instants
      (fun s => if s = "2024-01-01T09:00:00" then some 1704099600000
                else if s = "2024-01-01T17:00:00" then some 1704128400000 else none)
      "k" (fun _ => .networkFailure "down")
      ⟨"w1", true, "work", "2024-01-01T09:00:00", "2024-01-01T17:00:00", "p1"⟩
      ⟨"t1", "w1", true, "work", "2024-01-01T09:00:00", "2024-01-01T17:00:00", "p1"⟩
      1704099600000 1704128400000 1704099600000 1704128400000
      (by decide) (by decide) (by decide) (by decide) (by decide)).1,
   (c6_utc_instants
      (fun s => if s = "2024-01-01T09:00:00" then some 1704099600000
                else if s = "2024-01-01T17:00:00" then some 1704128400000 else none)
      "k" (fun _ => .networkFailure "down")
      ⟨"w1", true, "work", "2024-01-01T09:00:00", "2024-01-01T17:00:00", "p1"⟩
      ⟨"t1", "w1", true, "work", "2024-01-01T09:00:00", "2024-01-01T17:00:00", "p1"⟩
      1704099600000 1704128400000 1704099600000 1704128400000
      (by decide) (by decide) (by decide) (by decide) (by decide)).2.2.1⟩

/-- Witness for C8 at a concrete upstream response. -/
theorem c8_normalized_entry_witness :
    (createClockifyTimeEntry
        (fun s => if s = "2024-01-01T09:00:00" then some 1704099600000
                  else if s = "2024-01-01T17:00:00" then some 1704128400000 else none)
        (some "k")
        (fun _ => .success ⟨201, "raw",
          .ok (.obj [("id", .str "e1"), ("description", .str "work"),
                     ("projectId", .str "p1"), ("billable", .boolean true),
                     ("timeInterval",
                       .obj [("start", .str "2024-01-01T09:00:00Z"),
                             ("end", .str "2024-01-01T17:00:00Z")])])⟩)
        ⟨"w1", true, "work", "2024-01-01T09:00:00", "2024-01-01T17:00:00", "p1"⟩).1 =
      sendResponse "text"
        (.obj [("id", .str "e1"), ("description", .str "work"),
               ("start", .str "2024-01-01T09:00:00Z"),
               ("end", .str "2024-01-01T17:00:00Z"),
               ("projectId", .str "p1")]) ∧
    (updateClockifyTimeEntry
        (fun s => if s = "2024-01-01T09:00:00" then some 1704099600000
                  else if s = "2024-01-01T17:00:00" then some 1704128400000 else none)
        (some "k")
        (fun _ => .success ⟨201, "raw",
          .ok (.obj [("id", .str "e1"), ("description", .str "work"),
                     ("projectId", .str "p1"), ("billable", .boolean true),
                     ("timeInterval",
                       .obj [("start", .str "2024-01-01T09:00:00Z"),
                             ("end", .str "2024-01-01T17:00:00Z")])])⟩)
        ⟨"t1", "w1", true, "work", "2024-01-01T09:00:00", "2024-01-01T17:00:00", "p1"⟩).1 =
      sendResponse "text"
        (.obj [("id", .str "e1"), ("description", .str "work"),
               ("start", .str "2024-01-01T09:00:00Z"),
               ("end", .str "2024-01-01T17:00:00Z"),
               ("projectId", .str "p1")]) := by
  have h := c8_normalized_entry
    (fun s => if s = "2024-01-01T09:00:00" then some 1704099600000
              else if s = "2024-01-01T17:00:00" then some 1704128400000 else none)
    "k"
    (fun _ => .success ⟨201, "raw",
      .ok (.obj [("id", .str "e1"), ("description", .str "work"),
                 ("projectId", .str "p1"), ("billable", .boolean true),
                 ("timeInterval",
                   .obj [("start", .str "2024-01-01T09:00:00Z"),
                         ("end", .str "2024-01-01T17:00:00Z")])])⟩)
    ⟨"w1", true, "work", "2024-01-01T09:00:00", "2024-01-01T17:00:00", "p1"⟩
    ⟨"t1", "w1", true, "work", "2024-01-01T09:00:00", "2024-01-01T17:00:00", "p1"⟩
    1704099600000 1704128400000 1704099600000 1704128400000
    ⟨201, "raw",
      .ok (.obj [("id", .str "e1"), ("description", .str "work"),
                 ("projectId", .str "p1"), ("billable", .boolean true),
                 ("timeInterval",
                   .obj [("start", .str "2024-01-01T09:00:00Z"),
                         ("end", .str "2024-01-01T17:00:00Z")])])⟩
    ⟨201, "raw",
      .ok (.obj [("id", .str "e1"), ("description", .str "work"),
                 ("projectId", .str "p1"), ("billable", .boolean true),
                 ("timeInterval",
                   .obj [("start", .str "2024-01-01T09:00:00Z"),
                         ("end", .str "2024-01-01T17:00:00Z")])])⟩
    (.obj [("id", .str "e1"), ("description", .str "work"),
           ("projectId", .str "p1"), ("billable", .boolean true),
           ("timeInterval",
             .obj [("start", .str "2024-01-01T09:00:00Z"),
                   ("end", .str "2024-01-01T17:00:00Z")])])
    (.obj [("id", .str "e1"), ("description", .str "work"),
           ("projectId", .str "p1"), ("billable", .boolean true),
           ("timeInterval",
             .obj [("start", .str "2024-01-01T09:00:00Z"),
                   ("end", .str "2024-01-01T17:00:00Z")])])
    (.obj [("start", .str "2024-01-01T09:00:00Z"), ("end", .str "2024-01-01T17:00:00Z")])
    (.obj [("start", .str "2024-01-01T09:00:00Z"), ("end", .str "2024-01-01T17:00:00Z")])
    (.str "e1") (.str "work") (.str "2024-01-01T09:00:00Z")
    (.str "2024-01-01T17:00:00Z") (.str "p1")
    (.str "e1") (.str "work") (.str "2024-01-01T09:00:00Z")
    (.str "2024-01-01T17:00:00Z") (.str "p1")
    (by decide) (by decide) (by decide) (by decide) (by decide)
    rfl (by decide) (by decide) (by decide) rfl
    rfl rfl rfl rfl rfl rfl
    rfl (by decide) (by decide) (by decide) rfl
    rfl rfl rfl rfl rfl rfl
  exact h

/-- A successful required-string validation means the field was present with a
string value. -/
theorem requireString_ok (raw : RawInput) (k s : String)
    (h : requireString raw k = .ok s) : getField raw k = some (.str s) := by
  unfold requireString at h
  split at h
  · next s' heq =>
      injection h with h
      subst h
      exact heq
  · exact Except.noConfusion h
  · exact Except.noConfusion h

/-- A successful optional-number validation means the field was absent (value
defaulted) or present as an in-range number. -/
theorem numberMinDefault_ok (raw : RawInput) (k : String) (lo d n : Int)
    (h : numberMinDefault raw k lo d = .ok n) :
    getField raw k = none ∨ (getField raw k = some (.num n) ∧ lo ≤ n) := by
  unfold numberMinDefault at h
  split at h
  · next heq => exact Or.inl heq
  · next n' heq =>
      split at h
      · exact Except.noConfusion h
      · next hge =>
          injection h with h
          subst h
          exact Or.inr ⟨heq, by omega⟩
  · exact Except.noConfusion h

/-- A validated `list-clockify-tasks` input implies both required fields were
present as strings. -/
theorem validateListTasksInput_ok (raw : RawInput) (input : ListTasksInput)
    (h : validateListTasksInput raw = .ok input) :
    getField raw "workspaceId" = some (.str input.workspaceId) ∧
    getField raw "projectId" = some (.str input.projectId) := by
  unfold validateListTasksInput at h
  rcases hw : requireString raw "workspaceId" with m | w
  · rw [hw] at h
    exact Except.noConfusion h
  · rw [hw] at h
    rcases hp : requireString raw "projectId" with m | p
    · rw [hp] at h
      exact Except.noConfusion h
    · rw [hp] at h
      simp only [exceptOkBind] at h
      have h' : Except.ok (ε := String) (⟨w, p⟩ : ListTasksInput) = .ok input := h
      injection h' with h'
      subst h'
      exact ⟨requireString_ok raw "workspaceId" w hw, requireString_ok raw "projectId" p hp⟩

/-- A validated `list-clockify-time-entries` input implies all four required
fields were present as strings and the paging numbers were absent (defaulted)
or in range. -/
theorem validateListTimeEntriesInput_ok (raw : RawInput)
    (input : ListTimeEntriesInput)
    (h : validateListTimeEntriesInput raw = .ok input) :
    getField raw "workspaceId" = some (.str input.workspaceId) ∧
    getField raw "userId" = some (.str input.userId) ∧
    getField raw "start" = some (.str input.start) ∧
    getField raw "end" = some (.str input.end_) ∧
    (getField raw "page" = none ∨
      (getField raw "page" = some (.num input.page) ∧ 1 ≤ input.page)) ∧
    (getField raw "pageSize" = none ∨
      (getField raw "pageSize" = some (.num input.pageSize) ∧ 1 ≤ input.pageSize)) := by
  unfold validateListTimeEntriesInput at h
  rcases hw : requireString raw "workspaceId" with m | w
  · rw [hw] at h; exact Except.noConfusion h
  · rw [hw] at h
    rcases hu : requireString raw "userId" with m | u
    · rw [hu] at h; exact Except.noConfusion h
    · rw [hu] at h
      rcases hs : requireString raw "start" with m | s
      · rw [hs] at h; exact Except.noConfusion h
      · rw [hs] at h
        rcases he : requireString raw "end" with m | e
        · rw [he] at h; exact Except.noConfusion h
        · rw [he] at h
          rcases hp : numberMinDefault raw "page" 1 1 with m | page
          · rw [hp] at h; exact Except.noConfusion h
          · rw [hp] at h
            rcases hq : numberMinDefault raw "pageSize" 1 100 with m | pageSize
            · rw [hq] at h; exact Except.noConfusion h
            · rw [hq] at h
              simp only [exceptOkBind] at h
              have h' : Except.ok (ε := String)
                  (⟨w, u, s, e, page, pageSize⟩ : ListTimeEntriesInput) = .ok input := h
              injection h' with h'
              subst h'
              exact ⟨requireString_ok raw "workspaceId" w hw,
                requireString_ok raw "userId" u hu,
                requireString_ok raw "start" s hs,
                requireString_ok raw "end" e he,
                numberMinDefault_ok raw "page" 1 1 page hp,
                numberMinDefault_ok raw "pageSize" 1 100 pageSize hq⟩


/-- A validated `list-clockify-projects` input implies the required
`workspaceId` was present as a string. -/
theorem validateListProjectsInput_ok (raw : RawInput) (input : ListProjectsInput)
    (h : validateListProjectsInput raw = .ok input) :
    getField raw "workspaceId" = some (.str input.workspaceId) := by
  unfold validateListProjectsInput at h
  rcases hw : requireString raw "workspaceId" with m | w
  · rw [hw] at h; exact Except.noConfusion h
  · rw [hw] at h
    rcases hn : optionalString raw "name" with m | name
    · rw [hn] at h; exact Except.noConfusion h
    · rw [hn] at h
      simp only [exceptOkBind] at h
      have h' : Except.ok (ε := String) (⟨w, name⟩ : ListProjectsInput) = .ok input := h
      injection h' with h'
      subst h'
      exact requireString_ok raw "workspaceId" w hw

/-- A validated `create-clockify-time-entry` input implies all five required
fields were present as strings. -/
theorem validateCreateTimeEntryInput_ok (raw : RawInput)
    (input : CreateTimeEntryInput)
    (h : validateCreateTimeEntryInput raw = .ok input) :
    getField raw "workspaceId" = some (.str input.workspaceId) ∧
    getField raw "description" = some (.str input.description) ∧
    getField raw "start" = some (.str input.start) ∧
    getField raw "end" = some (.str input.end_) ∧
    getField raw "projectId" = some (.str input.projectId) := by
  unfold validateCreateTimeEntryInput at h
  rcases hw : requireString raw "workspaceId" with m | w
  · rw [hw] at h; exact Except.noConfusion h
  · rw [hw] at h
    rcases hb : booleanDefault raw "billable" true with m | b
    · rw [hb] at h; exact Except.noConfusion h
    · rw [hb] at h
      rcases hd : requireString raw "description" with m | d
      · rw [hd] at h; exact Except.noConfusion h
      · rw [hd] at h
        rcases hs : requireString raw "start" with m | s
        · rw [hs] at h; exact Except.noConfusion h
        · rw [hs] at h
          rcases he : requireString raw "end" with m | e
          · rw [he] at h; exact Except.noConfusion h
          · rw [he] at h
            rcases hp : requireString raw "projectId" with m | p
            · rw [hp] at h; exact Except.noConfusion h
            · rw [hp] at h
              simp only [exceptOkBind] at h
              have h' : Except.ok (ε := String)
                  (⟨w, b, d, s, e, p⟩ : CreateTimeEntryInput) = .ok input := h
              injection h' with h'
              subst h'
              exact ⟨requireString_ok raw "workspaceId" w hw,
                requireString_ok raw "description" d hd,
                requireString_ok raw "start" s hs,
                requireString_ok raw "end" e he,
                requireString_ok raw "projectId" p hp⟩

/-- A validated `update-clockify-time-entry` input implies all six required
fields were present as strings. -/
theorem validateUpdateTimeEntryInput_ok (raw : RawInput)
    (input : UpdateTimeEntryInput)
    (h : validateUpdateTimeEntryInput raw = .ok input) :
    getField raw "timeEntryId" = some (.str input.timeEntryId) ∧
    getField raw "workspaceId" = some (.str input.workspaceId) ∧
    getField raw "description" = some (.str input.description) ∧
    getField raw "start" = some (.str input.start) ∧
    getField raw "end" = some (.str input.end_) ∧
    getField raw "projectId" = some (.str input.projectId) := by
  unfold validateUpdateTimeEntryInput at h
  rcases ht : requireString raw "timeEntryId" with m | t
  · rw [ht] at h; exact Except.noConfusion h
  · rw [ht] at h
    rcases hw : requireString raw "workspaceId" with m | w
    · rw [hw] at h; exact Except.noConfusion h
    · rw [hw] at h
      rcases hb : booleanDefault raw "billable" true with m | b
      · rw [hb] at h; exact Except.noConfusion h
      · rw [hb] at h
        rcases hd : requireString raw "description" with m | d
        · rw [hd] at h; exact Except.noConfusion h
        · rw [hd] at h
          rcases hs : requireString raw "start" with m | s
          · rw [hs] at h; exact Except.noConfusion h
          · rw [hs] at h
            rcases he : requireString raw "end" with m | e
            · rw [he] at h; exact Except.noConfusion h
            · rw [he] at h
              rcases hp : requireString raw "projectId" with m | p
              · rw [hp] at h; exact Except.noConfusion h
              · rw [hp] at h
                simp only [exceptOkBind] at h
                have h' : Except.ok (ε := String)
                    (⟨t, w, b, d, s, e, p⟩ : UpdateTimeEntryInput) = .ok input := h
                injection h' with h'
                subst h'
                exact ⟨requireString_ok raw "timeEntryId" t ht,
                  requireString_ok raw "workspaceId" w hw,
                  requireString_ok raw "description" d hd,
                  requireString_ok raw "start" s hs,
                  requireString_ok raw "end" e he,
                  requireString_ok raw "projectId" p hp⟩

/-- A validated `delete-clockify-time-entry` input implies both required
fields were present as strings. -/
theorem validateDeleteTimeEntryInput_ok (raw : RawInput)
    (input : DeleteTimeEntryInput)
    (h : validateDeleteTimeEntryInput raw = .ok input) :
    getField raw "timeEntryId" = some (.str input.timeEntryId) ∧
    getField raw "workspaceId" = some (.str input.workspaceId) := by
  unfold validateDeleteTimeEntryInput at h
  rcases ht : requireString raw "timeEntryId" with m | t
  · rw [ht] at h; exact Except.noConfusion h
  · rw [ht] at h
    rcases hw : requireString raw "workspaceId" with m | w
    · rw [hw] at h; exact Except.noConfusion h
    · rw [hw] at h
      simp only [exceptOkBind] at h
      have h' : Except.ok (ε := String) (⟨t, w⟩ : DeleteTimeEntryInput) = .ok input := h
      injection h' with h'
      subst h'
      exact ⟨requireString_ok raw "timeEntryId" t ht,
        requireString_ok raw "workspaceId" w hw⟩

/-- C4: for every tool that declares required parameters —
`list-clockify-projects`, `list-clockify-tasks`, `list-clockify-time-entries`,
`create-clockify-time-entry`, `update-clockify-time-entry` and
`delete-clockify-time-entry` — an invocation whose raw arguments omit a
required field (or supply a non-string there), or carry an out-of-range
`page`/`pageSize` (for example `page < 1`), is rejected by schema validation
with a descriptive error before the handler runs: the result is a
validation-error text result and the request log is empty — the Gateway is
never invoked. -/
theorem c4_schema_validation (parse : String → Option Int) (apiKey : Option String)
    (net : ApiRequest → FetchOutcome) (raw : RawInput) :
    ((∀ s, getField raw "workspaceId" ≠ some (.str s)) →
      ∃ m, listClockifyProjectsTool apiKey net raw = (validationErrorResult m, [])) ∧
    (((∀ s, getField raw "workspaceId" ≠ some (.str s)) →
      ∃ m, listClockifyTasksTool apiKey net raw = (validationErrorResult m, [])) ∧
     ((∀ s, getField raw "projectId" ≠ some (.str s)) →
      ∃ m, listClockifyTasksTool apiKey net raw = (validationErrorResult m, []))) ∧
    (((∀ s, getField raw "workspaceId" ≠ some (.str s)) →
      ∃ m, listClockifyTimeEntriesTool apiKey net raw = (validationErrorResult m, [])) ∧
     ((∀ s, getField raw "userId" ≠ some (.str s)) →
      ∃ m, listClockifyTimeEntriesTool apiKey net raw = (validationErrorResult m, [])) ∧
     ((∀ s, getField raw "start" ≠ some (.str s)) →
      ∃ m, listClockifyTimeEntriesTool apiKey net raw = (validationErrorResult m, [])) ∧
     ((∀ s, getField raw "end" ≠ some (.str s)) →
      ∃ m, listClockifyTimeEntriesTool apiKey net raw = (validationErrorResult m, [])) ∧
     (∀ n : Int, getField raw "page" = some (.num n) → n < 1 →
      ∃ m, listClockifyTimeEntriesTool apiKey net raw = (validationErrorResult m, [])) ∧
     (∀ n : Int, getField raw "pageSize" = some (.num n) → n < 1 →
      ∃ m, listClockifyTimeEntriesTool apiKey net raw = (validationErrorResult m, []))) ∧
    (((∀ s, getField raw "workspaceId" ≠ some (.str s)) →
      ∃ m, createClockifyTimeEntryTool parse apiKey net raw = (validationErrorResult m, [])) ∧
     ((∀ s, getField raw "description" ≠ some (.str s)) →
      ∃ m, createClockifyTimeEntryTool parse apiKey net raw = (validationErrorResult m, [])) ∧
     ((∀ s, getField raw "start" ≠ some (.str s)) →
      ∃ m, createClockifyTimeEntryTool parse apiKey net raw = (validationErrorResult m, [])) ∧
     ((∀ s, getField raw "end" ≠ some (.str s)) →
      ∃ m, createClockifyTimeEntryTool parse apiKey net raw = (validationErrorResult m, [])) ∧
     ((∀ s, getField raw "projectId" ≠ some (.str s)) →
      ∃ m, createClockifyTimeEntryTool parse apiKey net raw = (validationErrorResult m, []))) ∧
    (((∀ s, getField raw "timeEntryId" ≠ some (.str s)) →
      ∃ m, updateClockifyTimeEntryTool parse apiKey net raw = (validationErrorResult m, [])) ∧
     ((∀ s, getField raw "workspaceId" ≠ some (.str s)) →
      ∃ m, updateClockifyTimeEntryTool parse apiKey net raw = (validationErrorResult m, [])) ∧
     ((∀ s, getField raw "description" ≠ some (.str s)) →
      ∃ m, updateClockifyTimeEntryTool parse apiKey net raw = (validationErrorResult m, [])) ∧
     ((∀ s, getField raw "start" ≠ some (.str s)) →
      ∃ m, updateClockifyTimeEntryTool parse apiKey net raw = (validationErrorResult m, [])) ∧
     ((∀ s, getField raw "end" ≠ some (.str s)) →
      ∃ m, updateClockifyTimeEntryTool parse apiKey net raw = (validationErrorResult m, [])) ∧
     ((∀ s, getField raw "projectId" ≠ some (.str s)) →
      ∃ m, updateClockifyTimeEntryTool parse apiKey net raw = (validationErrorResult m, []))) ∧
    (((∀ s, getField raw "timeEntryId" ≠ some (.str s)) →
      ∃ m, deleteClockifyTimeEntryTool apiKey net raw = (validationErrorResult m, [])) ∧
     ((∀ s, getField raw "workspaceId" ≠ some (.str s)) →
      ∃ m, deleteClockifyTimeEntryTool apiKey net raw = (validationErrorResult m, []))) := by
  have projErr : ∀ m, validateListProjectsInput raw = .error m →
      listClockifyProjectsTool apiKey net raw = (validationErrorResult m, []) := by
    intro m hv
    unfold listClockifyProjectsTool
    rw [hv]
  have tasksErr : ∀ m, validateListTasksInput raw = .error m →
      listClockifyTasksTool apiKey net raw = (validationErrorResult m, []) := by
    intro m hv
    unfold listClockifyTasksTool
    rw [hv]
  have entriesErr : ∀ m, validateListTimeEntriesInput raw = .error m →
      listClockifyTimeEntriesTool apiKey net raw = (validationErrorResult m, []) := by
    intro m hv
    unfold listClockifyTimeEntriesTool
    rw [hv]
  have createErr : ∀ m, validateCreateTimeEntryInput raw = .error m →
      createClockifyTimeEntryTool parse apiKey net raw = (validationErrorResult m, []) := by
    intro m hv
    unfold createClockifyTimeEntryTool
    rw [hv]
  have updateErr : ∀ m, validateUpdateTimeEntryInput raw = .error m →
      updateClockifyTimeEntryTool parse apiKey net raw = (validationErrorResult m, []) := by
    intro m hv
    unfold updateClockifyTimeEntryTool
    rw [hv]
  have delErr : ∀ m, validateDeleteTimeEntryInput raw = .error m →
      deleteClockifyTimeEntryTool apiKey net raw = (validationErrorResult m, []) := by
    intro m hv
    unfold deleteClockifyTimeEntryTool
    rw [hv]
  refine ⟨?_, ⟨?_, ?_⟩, ⟨?_, ?_, ?_, ?_, ?_, ?_⟩, ⟨?_, ?_, ?_, ?_, ?_⟩,
    ⟨?_, ?_, ?_, ?_, ?_, ?_⟩, ⟨?_, ?_⟩⟩
  · intro h
    rcases hv : validateListProjectsInput raw with m | input
    · exact ⟨m, projErr m hv⟩
    · exact absurd (validateListProjectsInput_ok raw input hv) (h input.workspaceId)
  · intro h
    rcases hv : validateListTasksInput raw with m | input
    · exact ⟨m, tasksErr m hv⟩
    · exact absurd (validateListTasksInput_ok raw input hv).1 (h input.workspaceId)
  · intro h
    rcases hv : validateListTasksInput raw with m | input
    · exact ⟨m, tasksErr m hv⟩
    · exact absurd (validateListTasksInput_ok raw input hv).2 (h input.projectId)
  · intro h
    rcases hv : validateListTimeEntriesInput raw with m | input
    · exact ⟨m, entriesErr m hv⟩
    · exact absurd (validateListTimeEntriesInput_ok raw input hv).1 (h input.workspaceId)
  · intro h
    rcases hv : validateListTimeEntriesInput raw with m | input
    · exact ⟨m, entriesErr m hv⟩
    · exact absurd (validateListTimeEntriesInput_ok raw input hv).2.1 (h input.userId)
  · intro h
    rcases hv : validateListTimeEntriesInput raw with m | input
    · exact ⟨m, entriesErr m hv⟩
    · exact absurd (validateListTimeEntriesInput_ok raw input hv).2.2.1 (h input.start)
  · intro h
    rcases hv : validateListTimeEntriesInput raw with m | input
    · exact ⟨m, entriesErr m hv⟩
    · exact absurd (validateListTimeEntriesInput_ok raw input hv).2.2.2.1 (h input.end_)
  · intro n hg hlt
    rcases hv : validateListTimeEntriesInput raw with m | input
    · exact ⟨m, entriesErr m hv⟩
    · rcases (validateListTimeEntriesInput_ok raw input hv).2.2.2.2.1 with hnone | ⟨hsome, hge⟩
      · rw [hg] at hnone
        exact Option.noConfusion hnone
      · rw [hg] at hsome
        injection hsome with hsome
        injection hsome with hsome
        omega
  · intro n hg hlt
    rcases hv : validateListTimeEntriesInput raw with m | input
    · exact ⟨m, entriesErr m hv⟩
    · rcases (validateListTimeEntriesInput_ok raw input hv).2.2.2.2.2 with hnone | ⟨hsome, hge⟩
      · rw [hg] at hnone
        exact Option.noConfusion hnone
      · rw [hg] at hsome
        injection hsome with hsome
        injection hsome with hsome
        omega
  · intro h
    rcases hv : validateCreateTimeEntryInput raw with m | input
    · exact ⟨m, createErr m hv⟩
    · exact absurd (validateCreateTimeEntryInput_ok raw input hv).1 (h input.workspaceId)
  · intro h
    rcases hv : validateCreateTimeEntryInput raw with m | input
    · exact ⟨m, createErr m hv⟩
    · exact absurd (validateCreateTimeEntryInput_ok raw input hv).2.1 (h input.description)
  · intro h
    rcases hv : validateCreateTimeEntryInput raw with m | input
    · exact ⟨m, createErr m hv⟩
    · exact absurd (validateCreateTimeEntryInput_ok raw input hv).2.2.1 (h input.start)
  · intro h
    rcases hv : validateCreateTimeEntryInput raw with m | input
    · exact ⟨m, createErr m hv⟩
    · exact absurd (validateCreateTimeEntryInput_ok raw input hv).2.2.2.1 (h input.end_)
  · intro h
    rcases hv : validateCreateTimeEntryInput raw with m | input
    · exact ⟨m, createErr m hv⟩
    · exact absurd (validateCreateTimeEntryInput_ok raw input hv).2.2.2.2 (h input.projectId)
  · intro h
    rcases hv : validateUpdateTimeEntryInput raw with m | input
    · exact ⟨m, updateErr m hv⟩
    · exact absurd (validateUpdateTimeEntryInput_ok raw input hv).1 (h input.timeEntryId)
  · intro h
    rcases hv : validateUpdateTimeEntryInput raw with m | input
    · exact ⟨m, updateErr m hv⟩
    · exact absurd (validateUpdateTimeEntryInput_ok raw input hv).2.1 (h input.workspaceId)
  · intro h
    rcases hv : validateUpdateTimeEntryInput raw with m | input
    · exact ⟨m, updateErr m hv⟩
    · exact absurd (validateUpdateTimeEntryInput_ok raw input hv).2.2.1 (h input.description)
  · intro h
    rcases hv : validateUpdateTimeEntryInput raw with m | input
    · exact ⟨m, updateErr m hv⟩
    · exact absurd (validateUpdateTimeEntryInput_ok raw input hv).2.2.2.1 (h input.start)
  · intro h
    rcases hv : validateUpdateTimeEntryInput raw with m | input
    · exact ⟨m, updateErr m hv⟩
    · exact absurd (validateUpdateTimeEntryInput_ok raw input hv).2.2.2.2.1 (h input.end_)
  · intro h
    rcases hv : validateUpdateTimeEntryInput raw with m | input
    · exact ⟨m, updateErr m hv⟩
    · exact absurd (validateUpdateTimeEntryInput_ok raw input hv).2.2.2.2.2 (h input.projectId)
  · intro h
    rcases hv : validateDeleteTimeEntryInput raw with m | input
    · exact ⟨m, delErr m hv⟩
    · exact absurd (validateDeleteTimeEntryInput_ok raw input hv).1 (h input.timeEntryId)
  · intro h
    rcases hv : validateDeleteTimeEntryInput raw with m | input
    · exact ⟨m, delErr m hv⟩
    · exact absurd (validateDeleteTimeEntryInput_ok raw input hv).2 (h input.workspaceId)

/-- Witness for C4: every one of the six parameterized tools rejects the empty
argument object with no network call, and a well-formed
`list-clockify-time-entries` invocation with `page = 0` is rejected
likewise. -/
theorem c4_schema_validation_witness :
    (∃ m, listClockifyProjectsTool (some "k") (fun _ => .networkFailure "down") [] =
      (validationErrorResult m, [])) ∧
    (∃ m, listClockifyTasksTool (some "k") (fun _ => .networkFailure "down") [] =
      (validationErrorResult m, [])) ∧
    (∃ m, listClockifyTimeEntriesTool (some "k") (fun _ => .networkFailure "down")
      [("workspaceId", .str "w"), ("userId", .str "u"), ("start", .str "s"),
       ("end", .str "e"), ("page", .num 0)] =
      (validationErrorResult m, [])) ∧
    (∃ m, createClockifyTimeEntryTool (fun _ => none) (some "k")
      (fun _ => .networkFailure "down") [] = (validationErrorResult m, [])) ∧
    (∃ m, updateClockifyTimeEntryTool (fun _ => none) (some "k")
      (fun _ => .networkFailure "down") [] = (validationErrorResult m, [])) ∧
    (∃ m, deleteClockifyTimeEntryTool (some "k") (fun _ => .networkFailure "down") [] =
      (validationErrorResult m, [])) :=
  ⟨(c4_schema_validation (fun _ => none) (some "k") (fun _ => .networkFailure "down") []).1
      (fun s h => Option.noConfusion h),
   (c4_schema_validation (fun _ => none) (some "k") (fun _ => .networkFailure "down") []).2.1.1
      (fun s h => Option.noConfusion h),
   (c4_schema_validation (fun _ => none) (some "k") (fun _ => .networkFailure "down")
      [("workspaceId", .str "w"), ("userId", .str "u"), ("start", .str "s"),
       ("end", .str "e"), ("page", .num 0)]).2.2.1.2.2.2.2.1 0 rfl (by decide),
   (c4_schema_validation (fun _ => none) (some "k") (fun _ => .networkFailure "down") []).2.2.2.1.2.1
      (fun s h => Option.noConfusion h),
   (c4_schema_validation (fun _ => none) (some "k") (fun _ => .networkFailure "down") []).2.2.2.2.1.1
      (fun s h => Option.noConfusion h),
   (c4_schema_validation (fun _ => none) (some "k") (fun _ => .networkFailure "down") []).2.2.2.2.2.1
      (fun s h => Option.noConfusion h)⟩
